import Mathlib

/-!
Verification of the ISIA-Project visualization client.

Shallow embedding of the browser client in src/public/main.js (the current
client) and, where the claims reference it, of the earlier iteration of the
same client kept in the repository (src/unnamed/part_000).  JavaScript
objects holding dynamic fields are modelled as association lists from field
names to a small dynamic value type; JavaScript numbers appearing in the
data are modelled as exact rationals, and the integer cell coordinates of
the protocol as integers.  The global mutable state of the client is the
SimState structure; every handler becomes a pure function SimState to
SimState, and the DOM/canvas output of the renderer becomes an explicit
list of canvas operations.
-/

namespace ISIA

/-- A dynamic JavaScript value as it appears in the protocol messages:
a number, a string or a boolean. -/
inductive Value where
  | num (q : Rat)
  | str (s : String)
  | bool (b : Bool)
deriving DecidableEq, Repr

/-- A JavaScript object modelled as an association list from field names to
values; lookup returns the first binding of a key. -/
abbrev Obj : Type := List (String × Value)

/-- Field access on an object: the first binding of the key, if any. -/
def lookupObj : Obj → String → Option Value
  | [], _ => none
  | (k, v) :: rest, key => if k = key then some v else lookupObj rest key

/-- JavaScript object spread, as in the source patterns
spread old then spread new: every field of new wins, fields only in old
are preserved.  Modelled up to field-lookup semantics: bindings of old
that new shadows are dropped, then the bindings of new follow. -/
def objMerge (old new : Obj) : Obj :=
  (List.filter (fun p => (lookupObj new p.1).isNone) old) ++ new

/-- JavaScript truthiness of an optional field value, as used by the
conditionals of the source (absent and undefined are falsy, a number is
truthy iff nonzero, a string iff nonempty). -/
def truthy : Option Value → Bool
  | none => false
  | some (Value.num q) => decide (q ≠ 0)
  | some (Value.str s) => decide (s ≠ "")
  | some (Value.bool b) => b

/-- One entry of the map_cells list of a full_map_init / update_map
message: integer coordinates plus the remaining cell fields (terrain,
dust_storm and the like). -/
structure CellMsg where
  x : Int
  y : Int
  fields : Obj
deriving DecidableEq

/-- An agent object as carried by agent_update messages and stored in the
agents array: its id plus its remaining fields. -/
structure AgentObj where
  id : String
  fields : Obj
deriving DecidableEq

/-- A resource object as carried by resource_discovered messages. -/
structure ResourceObj where
  id : String
  fields : Obj
deriving DecidableEq

/-- A hazard object as carried by hazard_detected messages. -/
structure HazardObj where
  id : String
  fields : Obj
deriving DecidableEq

/-- MAP_SIZE_CELLS of main.js line 2: the total size of the simulated
map. -/
def MAP_SIZE_CELLS : Int := 1000

/-- VIEWPORT_SIZE_CELLS of main.js line 3: the size of the square
viewport in cells. -/
def VIEWPORT_SIZE_CELLS : Nat := 100

/-- CELL_SIZE_PX of main.js line 4: 600 / 100 = 6 pixels per cell. -/
def CELL_SIZE_PX : Rat := 6

/-- The global mutable state of the client (main.js lines 7 to 31): the
entity collections, the explored set, the cell table keyed by the
coordinate pair, the chunk bounds, the viewport origin, the selection and
the simulation flag.  The string keys of mapCells and of the explored Set
in the source are the strings x comma y, an injective encoding of the
coordinate pair, so both are keyed here by the pair itself. -/
structure SimState where
  agents : List AgentObj
  resources : List ResourceObj
  hazards : List HazardObj
  exploredCells : List (Int × Int)
  mapCells : List ((Int × Int) × CellMsg)
  mapMinX : Int
  mapMinY : Int
  mapMaxX : Int
  mapMaxY : Int
  viewportX : Int
  viewportY : Int
  selectedAgent : Option AgentObj
  simulationStarted : Bool
deriving DecidableEq

attribute [ext] SimState

/-- The initial state of the client: the module level initializers of
main.js lines 7 to 31 (every collection empty, bounds and viewport
zero). -/
def initialState : SimState :=
  { agents := [], resources := [], hazards := [], exploredCells := [],
    mapCells := [], mapMinX := 0, mapMinY := 0, mapMaxX := 0, mapMaxY := 0,
    viewportX := 0, viewportY := 0, selectedAgent := none,
    simulationStarted := false }

/-- clampViewport of main.js lines 553 to 570 (identical in part_000
lines 466 to 483): clamp a candidate origin to the loaded bounds, with
the unloaded sentinel test pinning the origin to zero. -/
def clampViewport (x y : Int) (s : SimState) : SimState :=
  let maxViewX := s.mapMaxX - (VIEWPORT_SIZE_CELLS : Int) + 1
  let maxViewY := s.mapMaxY - (VIEWPORT_SIZE_CELLS : Int) + 1
  let newX := max s.mapMinX (min x maxViewX)
  let newY := max s.mapMinY (min y maxViewY)
  if s.mapMaxX = 0 ∧ s.mapMinX = MAP_SIZE_CELLS then
    { s with viewportX := 0, viewportY := 0 }
  else
    { s with viewportX := newX, viewportY := newY }

/-- Assignment to a keyed slot of the cell table, as in the source
expression mapCells bracket key equals value: overwrite the binding if
the key is present, otherwise append a new binding. -/
def insertKV (t : List ((Int × Int) × CellMsg)) (k : Int × Int)
    (v : CellMsg) : List ((Int × Int) × CellMsg) :=
  match t with
  | [] => [(k, v)]
  | (k0, v0) :: rest =>
      if k0 = k then (k, v) :: rest else (k0, v0) :: insertKV rest k v

/-- Read of a keyed slot of the cell table, as in the source expression
mapCells bracket key. -/
def lookupKV : List ((Int × Int) × CellMsg) → Int × Int → Option CellMsg
  | [], _ => none
  | (k0, v0) :: rest, k => if k0 = k then some v0 else lookupKV rest k

/-- The cell table built by the forEach loop of initializeFullMap
(main.js lines 149 to 157): starting from the emptied table, each listed
cell is copied and assigned under its coordinate key. -/
def buildMapCells (cells : List CellMsg) : List ((Int × Int) × CellMsg) :=
  cells.foldl (fun t c => insertKV t (c.x, c.y) c) []

/-- The mapMinX accumulation of the same forEach loop: Math.min folded
over the cells x coordinates starting from the reset value
MAP_SIZE_CELLS (main.js lines 143 and 153). -/
def foldMinX (cells : List CellMsg) : Int :=
  cells.foldl (fun m c => min m c.x) MAP_SIZE_CELLS

/-- The mapMinY accumulation (main.js lines 144 and 154). -/
def foldMinY (cells : List CellMsg) : Int :=
  cells.foldl (fun m c => min m c.y) MAP_SIZE_CELLS

/-- The mapMaxX accumulation: Math.max folded from the reset value 0
(main.js lines 145 and 155). -/
def foldMaxX (cells : List CellMsg) : Int :=
  cells.foldl (fun m c => max m c.x) 0

/-- The mapMaxY accumulation (main.js lines 146 and 156). -/
def foldMaxY (cells : List CellMsg) : Int :=
  cells.foldl (fun m c => max m c.y) 0

/-- initializeFullMap of main.js lines 139 to 170 (identical in part_000
lines 84 to 115): clear the cell table, rebuild it from the listed
cells while accumulating the bounds from the reset sentinels, and, when
the list is non-empty, snap the viewport origin to the accumulated
minimum bound.  The single forEach loop of the source performs the five
accumulations of buildMapCells and the four bound folds side by side;
they are independent, so they are split into separate folds here. -/
def initFullMap (cells : List CellMsg) (s : SimState) : SimState :=
  let s1 := { s with
    mapCells := buildMapCells cells,
    mapMinX := foldMinX cells, mapMinY := foldMinY cells,
    mapMaxX := foldMaxX cells, mapMaxY := foldMaxY cells }
  if cells.length > 0 then
    { s1 with viewportX := foldMinX cells, viewportY := foldMinY cells }
  else s1

/-- updateMapCell of main.js lines 172 to 178: patch one cell only if its
coordinate key is already present, shallow-merging the update fields into
the stored cell; an unknown coordinate is a no-op.  The source merges
into the whole stored object; the coordinates x and y are kept structured
here and the update patches the remaining cell fields, which is what the
protocol sends (partial terrain / dust_storm fields). -/
def updateMapCell (x y : Int) (updates : Obj) (s : SimState) : SimState :=
  match lookupKV s.mapCells (x, y) with
  | some c =>
      let merged : CellMsg := { c with fields := objMerge c.fields updates }
      { s with mapCells := insertKV s.mapCells (x, y) merged }
  | none => s

/-- The agents array transformation of updateAgent (main.js lines 230 to
239): findIndex on the id, shallow field-merge in place at the first
match, otherwise push at the end. -/
def updateAgentList : List AgentObj → AgentObj → List AgentObj
  | [], a => [a]
  | x :: xs, a =>
      if x.id = a.id then
        { id := x.id, fields := objMerge x.fields a.fields } :: xs
      else
        x :: updateAgentList xs a

/-- updateAgent of main.js lines 230 to 239: upsert the incoming agent
object by id. -/
def updateAgent (a : AgentObj) (s : SimState) : SimState :=
  { s with agents := updateAgentList s.agents a }

/-- addResource of main.js lines 241 to 248: insert the resource, with
the discovered flag forced true, only if no stored resource has its
id. -/
def addResource (r : ResourceObj) (s : SimState) : SimState :=
  if s.resources.any (fun q => q.id = r.id) then s
  else
    { s with resources := s.resources ++
        [{ id := r.id,
           fields := objMerge r.fields [("discovered", Value.bool true)] }] }

/-- addHazard of main.js lines 250 to 253: the current client only emits
a log message and re-renders; it stores nothing, so the state is
unchanged. -/
def addHazard (_h : HazardObj) (s : SimState) : SimState := s

/-- addHazard of the earlier client, part_000 lines 184 to 191: push the
hazard only if no stored hazard has its id; a duplicate id is a no-op. -/
def part0addHazard (h : HazardObj) (s : SimState) : SimState :=
  if s.hazards.any (fun q => q.id = h.id) then s
  else { s with hazards := s.hazards ++ [h] }

/-- markCellExplored of main.js lines 255 to 258: Set.add of the
coordinate key, which is idempotent. -/
def markCellExplored (x y : Int) (s : SimState) : SimState :=
  if (x, y) ∈ s.exploredCells then s
  else { s with exploredCells := s.exploredCells ++ [(x, y)] }

/-- resetSimulation of main.js lines 384 to 412, restricted to its state
mutations: agents, resources, explored set, cell table and selection are
cleared, viewport and bounds are zeroed and the simulation flag drops;
the hazards array is not touched by this variant. -/
def resetSimulation (s : SimState) : SimState :=
  { s with
    agents := [], resources := [], exploredCells := [],
    mapCells := [], selectedAgent := none,
    viewportX := 0, viewportY := 0,
    mapMinX := 0, mapMinY := 0, mapMaxX := 0, mapMaxY := 0,
    simulationStarted := false }

/-- resetSimulation of the earlier client, part_000 lines 299 to 317: the
same reset but the hazards array is cleared as well (that client has no
simulationStarted flag, so the flag is left as is here). -/
def part0resetSimulation (s : SimState) : SimState :=
  { s with
    agents := [], resources := [], hazards := [],
    exploredCells := [], mapCells := [], selectedAgent := none,
    viewportX := 0, viewportY := 0,
    mapMinX := 0, mapMinY := 0, mapMaxX := 0, mapMaxY := 0 }

/-- The inbound message frames recognized by handleMessage (main.js lines
180 to 228), with the payloads the handlers read. -/
inductive Msg where
  | fullMapInit (cells : List CellMsg)
  | updateMap (cells : List CellMsg)
  | mapCellUpdate (x y : Int) (updates : Obj)
  | agentUpdate (a : AgentObj)
  | resourceDiscovered (r : ResourceObj)
  | hazardDetected (h : HazardObj)
  | cellExplored (x y : Int)
  | logMessage
  | stats
  | simStarted
  | simStopped
  | simPaused
  | simResumed
  | errorReport

/-- handleMessage of main.js lines 180 to 228: route one frame to its
handler.  The log, stats, started, paused, resumed and error cases touch
only the DOM, not the store; simulation_stopped also drops the
simulationStarted flag. -/
def handleMessage (m : Msg) (s : SimState) : SimState :=
  match m with
  | Msg.fullMapInit cells => initFullMap cells s
  | Msg.updateMap cells => initFullMap cells s
  | Msg.mapCellUpdate x y u => updateMapCell x y u s
  | Msg.agentUpdate a => updateAgent a s
  | Msg.resourceDiscovered r => addResource r s
  | Msg.hazardDetected h => addHazard h s
  | Msg.cellExplored x y => markCellExplored x y s
  | Msg.logMessage => s
  | Msg.stats => s
  | Msg.simStarted => s
  | Msg.simStopped => { s with simulationStarted := false }
  | Msg.simPaused => s
  | Msg.simResumed => s
  | Msg.errorReport => s

/-- The events that can mutate the store: an inbound message, a pan
gesture (mouse drag or arrow key, both guarded by mapMaxX equal zero and
both routed through clampViewport, main.js lines 588 to 609 and 632 to
658), an agent selection (selectAgent, main.js lines 329 to 343) and the
reset button (resetSimulation). -/
inductive Event where
  | message (m : Msg)
  | pan (x y : Int)
  | select (a : AgentObj)
  | reset

/-- One event step of the client. -/
def applyEvent (s : SimState) (e : Event) : SimState :=
  match e with
  | Event.message m => handleMessage m s
  | Event.pan x y => if s.mapMaxX = 0 then s else clampViewport x y s
  | Event.select a => { s with selectedAgent := some a }
  | Event.reset => resetSimulation s

/-- A sequence of event steps. -/
def applyEvents (es : List Event) (s : SimState) : SimState :=
  es.foldl applyEvent s


/-- The chunk-load events: the two message kinds routed to
initializeFullMap. -/
def isChunkLoad : Event → Bool
  | Event.message (Msg.fullMapInit _) => true
  | Event.message (Msg.updateMap _) => true
  | _ => false

/-- The chunk-load events whose cell list is non-empty. -/
def isNonEmptyChunkLoad : Event → Bool
  | Event.message (Msg.fullMapInit cells) => decide (cells.length > 0)
  | Event.message (Msg.updateMap cells) => decide (cells.length > 0)
  | _ => false

/-- maxReconnectDelay of main.js line 32, in milliseconds. -/
def maxReconnectDelay : Nat := 5000

/-- The reconnect delay computed by the onclose handler of main.js line
80 from the already incremented attempt counter: the minimum of 500
times 2 to the power attempts minus 1, and the maximum delay. -/
def reconnectDelay (attempts : Nat) : Nat :=
  min (500 * 2 ^ (attempts - 1)) maxReconnectDelay

/-- The onclose handler of main.js lines 73 to 83 acting on the attempt
counter: increment it, then schedule a reconnect after the computed
delay.  Returns the new counter and the scheduled delay. -/
def onClose (attempts : Nat) : Nat × Nat :=
  (attempts + 1, reconnectDelay (attempts + 1))

/-- The onopen handler of main.js lines 54 to 60 acting on the attempt
counter: reset it to zero. -/
def onOpen (_attempts : Nat) : Nat := 0

/-- The delays scheduled by n successive unexpected closes starting from
the given attempt counter, with no successful open in between. -/
def closeDelays : Nat → Nat → List Nat
  | _, 0 => []
  | attempts, n + 1 =>
      (onClose attempts).2 :: closeDelays (onClose attempts).1 n

/-- One canvas context operation as issued by render.  Every arc drawn
by the source is a full circle from angle 0 to 2 pi, so the two angle
arguments are omitted from the arc operation. -/
inductive CanvasOp where
  | clearRect (x y w h : Rat)
  | setFillStyle (style : String)
  | setStrokeStyle (style : String)
  | setLineWidth (w : Rat)
  | fillRect (x y w h : Rat)
  | beginPath
  | closePath
  | moveTo (x y : Rat)
  | lineTo (x y : Rat)
  | rectPath (x y w h : Rat)
  | arcFull (x y r : Rat)
  | fillPath
  | strokePath
deriving DecidableEq, Repr

/-- Numeric field access, as the source reads item.x and agent.battery:
the rational value of the field when present and numeric. -/
def getNum (o : Obj) (k : String) : Option Rat :=
  match lookupObj o k with
  | some (Value.num q) => some q
  | _ => none

/-- The JavaScript pattern of a string field with a fallback, as in
agent.color or a literal default: the default applies when the field is
absent or its string is empty (falsy). -/
def strOrDefault (o : Obj) (k : String) (d : String) : String :=
  match lookupObj o k with
  | some (Value.str t) => if t = "" then d else t
  | _ => d

/-- The JavaScript pattern of a numeric field with a fallback, as in
agent.radius or 5: the default applies when the field is absent or zero
(falsy). -/
def numOrDefault (o : Obj) (k : String) (d : Rat) : Rat :=
  match lookupObj o k with
  | some (Value.num q) => if q = 0 then d else q
  | _ => d

/-- The terrain background color choice of render (main.js lines 433 to
439): strict equality tests on the terrain field, defaulting to the
unknown-terrain color. -/
def terrainColor (c : CellMsg) : String :=
  if lookupObj c.fields "terrain" = some (Value.num 1) then
    "rgba(209, 213, 219, 0.2)"
  else if lookupObj c.fields "terrain" = some (Value.num (-1)) then
    "rgba(30, 41, 59, 0.6)"
  else "rgba(75, 85, 99, 0.3)"

/-- The canvas operations of one viewport cell in the terrain pass of
render (main.js lines 420 to 460): terrain fill or unloaded fill, then
the explored overlay, then the dust storm overlay. -/
def cellOps (mapCells : List ((Int × Int) × CellMsg))
    (exploredCells : List (Int × Int)) (viewportX viewportY : Int)
    (vx vy : Nat) : List CanvasOp :=
  let worldX : Int := viewportX + (vx : Int)
  let worldY : Int := viewportY + (vy : Int)
  let drawX : Rat := (vx : Rat) * CELL_SIZE_PX
  let drawY : Rat := (vy : Rat) * CELL_SIZE_PX
  match lookupKV mapCells (worldX, worldY) with
  | some cell =>
      [CanvasOp.setFillStyle (terrainColor cell),
       CanvasOp.fillRect drawX drawY CELL_SIZE_PX CELL_SIZE_PX] ++
      (if (worldX, worldY) ∈ exploredCells then
        [CanvasOp.setFillStyle "rgba(59, 130, 246, 0.1)",
         CanvasOp.fillRect drawX drawY CELL_SIZE_PX CELL_SIZE_PX]
      else []) ++
      (if truthy (lookupObj cell.fields "dust_storm") then
        [CanvasOp.setFillStyle "rgba(239, 181, 73, 0.7)",
         CanvasOp.fillRect drawX drawY CELL_SIZE_PX CELL_SIZE_PX]
      else [])
  | none =>
      [CanvasOp.setFillStyle "#0f172a",
       CanvasOp.fillRect drawX drawY CELL_SIZE_PX CELL_SIZE_PX]

/-- The terrain pass of render: the double loop over viewport columns
then rows (main.js lines 420 to 461). -/
def terrainPassOps (mapCells : List ((Int × Int) × CellMsg))
    (exploredCells : List (Int × Int))
    (viewportX viewportY : Int) : List CanvasOp :=
  (List.range VIEWPORT_SIZE_CELLS).flatMap (fun vx =>
    (List.range VIEWPORT_SIZE_CELLS).flatMap (fun vy =>
      cellOps mapCells exploredCells viewportX viewportY vx vy))

/-- One iteration of the grid pass of render (main.js lines 466 to 477):
a vertical then a horizontal line. -/
def gridLineOps (i : Nat) : List CanvasOp :=
  [CanvasOp.beginPath,
   CanvasOp.moveTo ((i : Rat) * CELL_SIZE_PX) 0,
   CanvasOp.lineTo ((i : Rat) * CELL_SIZE_PX)
     ((VIEWPORT_SIZE_CELLS : Rat) * CELL_SIZE_PX),
   CanvasOp.strokePath,
   CanvasOp.beginPath,
   CanvasOp.moveTo 0 ((i : Rat) * CELL_SIZE_PX),
   CanvasOp.lineTo ((VIEWPORT_SIZE_CELLS : Rat) * CELL_SIZE_PX)
     ((i : Rat) * CELL_SIZE_PX),
   CanvasOp.strokePath]

/-- The grid pass of render (main.js lines 463 to 477). -/
def gridOps : List CanvasOp :=
  [CanvasOp.setStrokeStyle "#374151", CanvasOp.setLineWidth (1 / 2)] ++
  (List.range (VIEWPORT_SIZE_CELLS + 1)).flatMap gridLineOps

/-- The viewport culling test of the entity pass (main.js lines 482 to
483).  A comparison against an absent field is false in JavaScript, so
an item without numeric x or y is culled. -/
def inViewport (viewportX viewportY : Int) (o : Obj) : Bool :=
  match getNum o "x", getNum o "y" with
  | some x, some y =>
      decide ((viewportX : Rat) ≤ x) &&
      decide (x < (viewportX : Rat) + (VIEWPORT_SIZE_CELLS : Rat)) &&
      decide ((viewportY : Rat) ≤ y) &&
      decide (y < (viewportY : Rat) + (VIEWPORT_SIZE_CELLS : Rat))
  | _, _ => false

/-- The canvas operations for one item of the entity pass of render
(main.js lines 480 to 549).  The source iterates the spread list of
resources then agents and discriminates resources by the presence of the
discovered field; the selection ring closes each drawn item. -/
def itemOps (viewportX viewportY : Int) (selected : Option AgentObj)
    (id : String) (o : Obj) : List CanvasOp :=
  if inViewport viewportX viewportY o then
    let ix : Rat := (getNum o "x").getD 0
    let iy : Rat := (getNum o "y").getD 0
    let drawX : Rat :=
      (ix - (viewportX : Rat)) * CELL_SIZE_PX + CELL_SIZE_PX / 2
    let drawY : Rat :=
      (iy - (viewportY : Rat)) * CELL_SIZE_PX + CELL_SIZE_PX / 2
    let shapeSize : Rat := CELL_SIZE_PX
    ([CanvasOp.setFillStyle (strOrDefault o "color" "#ffffff"),
      CanvasOp.beginPath] ++
     (if (lookupObj o "discovered").isSome then
        [CanvasOp.setFillStyle
           (if truthy (lookupObj o "discovered") then
             "rgba(59, 130, 246, 0.9)"
            else "rgba(16, 185, 129, 0.3)"),
         CanvasOp.beginPath,
         CanvasOp.arcFull drawX drawY (CELL_SIZE_PX * (2 / 5)),
         CanvasOp.fillPath] ++
        (if truthy (lookupObj o "discovered") then
          [CanvasOp.setStrokeStyle "#10b981", CanvasOp.setLineWidth 2,
           CanvasOp.strokePath]
        else [])
      else if lookupObj o "type" = some (Value.str "rover") then
        [CanvasOp.rectPath (drawX - shapeSize / 2) (drawY - shapeSize / 2)
           shapeSize shapeSize,
         CanvasOp.fillPath]
      else if lookupObj o "type" = some (Value.str "drone") then
        [CanvasOp.moveTo drawX (drawY - shapeSize / 2),
         CanvasOp.lineTo (drawX + shapeSize / 2) (drawY + shapeSize / 2),
         CanvasOp.lineTo (drawX - shapeSize / 2) (drawY + shapeSize / 2),
         CanvasOp.closePath,
         CanvasOp.fillPath,
         CanvasOp.setStrokeStyle (strOrDefault o "color" "#8b5cf6"),
         CanvasOp.setLineWidth 2,
         CanvasOp.beginPath,
         CanvasOp.arcFull drawX drawY
           (numOrDefault o "radius" 5 * CELL_SIZE_PX),
         CanvasOp.strokePath]
      else if lookupObj o "type" = some (Value.str "base") then
        [CanvasOp.setStrokeStyle (strOrDefault o "color" "#8b5cf6"),
         CanvasOp.setLineWidth 2,
         CanvasOp.arcFull drawX drawY
           (numOrDefault o "radius" 5 * CELL_SIZE_PX),
         CanvasOp.strokePath,
         CanvasOp.setFillStyle (strOrDefault o "color" "#8b5cf6"),
         CanvasOp.beginPath,
         CanvasOp.arcFull drawX drawY (CELL_SIZE_PX * (3 / 10)),
         CanvasOp.fillPath]
      else []) ++
     (if (match selected with
          | some a => decide (a.id = id)
          | none => false) then
        [CanvasOp.setStrokeStyle "#ffffff", CanvasOp.setLineWidth 2,
         CanvasOp.beginPath,
         CanvasOp.arcFull drawX drawY (CELL_SIZE_PX * (4 / 5)),
         CanvasOp.strokePath]
      else []))
  else []

/-- The entity pass of render (main.js lines 480 to 549): the spread
list of resources then agents, in that order. -/
def entityPassOps (resources : List ResourceObj) (agents : List AgentObj)
    (viewportX viewportY : Int) (selected : Option AgentObj) :
    List CanvasOp :=
  resources.flatMap (fun r => itemOps viewportX viewportY selected r.id r.fields)
    ++
  agents.flatMap (fun a => itemOps viewportX viewportY selected a.id a.fields)

/-- The full operation stream of one render invocation (main.js lines
416 to 550) as a function of exactly the state variables the source
render reads: clear the canvas, draw the terrain pass, the grid and the
entity pass. -/
def renderOf (mapCells : List ((Int × Int) × CellMsg))
    (exploredCells : List (Int × Int)) (resources : List ResourceObj)
    (agents : List AgentObj) (viewportX viewportY : Int)
    (selected : Option AgentObj) : List CanvasOp :=
  [CanvasOp.clearRect 0 0 ((VIEWPORT_SIZE_CELLS : Rat) * CELL_SIZE_PX)
     ((VIEWPORT_SIZE_CELLS : Rat) * CELL_SIZE_PX)] ++
  terrainPassOps mapCells exploredCells viewportX viewportY ++
  gridOps ++
  entityPassOps resources agents viewportX viewportY selected

/-- render applied to the client state. -/
def renderCmds (s : SimState) : List CanvasOp :=
  renderOf s.mapCells s.exploredCells s.resources s.agents
    s.viewportX s.viewportY s.selectedAgent

/-- One invocation of render, whether from the 100 ms timer or
synchronously after a handler: the state afterwards paired with the
operations drawn.  The body of the source render contains no assignment
to any state variable, so the embedding of the invocation returns the
input state unchanged. -/
def renderInvoke (s : SimState) : SimState × List CanvasOp :=
  (s, renderCmds s)

/-- The scenario chunk of the spec: a 100 by 100 block of cells spanning
x in 200 to 299 and y in 200 to 299. -/
def chunk200 : List CellMsg :=
  (List.range 100).flatMap (fun (i : Nat) =>
    (List.range 100).map (fun (j : Nat) =>
      { x := 200 + (i : Int), y := 200 + (j : Int), fields := [] }))

/-- The client state after loading the scenario chunk into the initial
state. -/
def chunkState : SimState := initFullMap chunk200 initialState

/-- The last listed cell carrying a given coordinate key, if any: the
value a wholesale table replacement must associate to that key. -/
def lastListed (cells : List CellMsg) (k : Int × Int) : Option CellMsg :=
  cells.foldl (fun acc c => if (c.x, c.y) = k then some c else acc) none

theorem foldlMin_le_start {A : Type} (f : A → Int) (l : List A) :
    ∀ a : Int, List.foldl (fun m c => min m (f c)) a l ≤ a := by
  induction l with
  | nil => intro a; simp
  | cons hd tl ih =>
      intro a
      exact le_trans (ih (min a (f hd))) (min_le_left a (f hd))

theorem foldlMin_le_mem {A : Type} (f : A → Int) {l : List A} {c : A}
    (h : c ∈ l) : ∀ a : Int, List.foldl (fun m c => min m (f c)) a l ≤ f c := by
  induction l with
  | nil => cases h
  | cons hd tl ih =>
      intro a
      rcases List.mem_cons.mp h with rfl | hmem
      · exact le_trans (foldlMin_le_start f tl (min a (f c)))
          (min_le_right a (f c))
      · exact ih hmem (min a (f hd))

theorem foldlMin_attained {A : Type} (f : A → Int) (l : List A) :
    ∀ a : Int, List.foldl (fun m c => min m (f c)) a l = a ∨
      ∃ c ∈ l, List.foldl (fun m c => min m (f c)) a l = f c := by
  induction l with
  | nil => intro a; left; rfl
  | cons hd tl ih =>
      intro a
      simp only [List.foldl_cons]
      rcases ih (min a (f hd)) with h | ⟨c, hc, hv⟩
      · rcases min_cases a (f hd) with ⟨he, _⟩ | ⟨he, _⟩
        · left; rw [h, he]
        · right; exact ⟨hd, List.mem_cons_self hd tl, by rw [h, he]⟩
      · right; exact ⟨c, List.mem_cons_of_mem hd hc, hv⟩

theorem foldlMax_ge_start {A : Type} (f : A → Int) (l : List A) :
    ∀ a : Int, a ≤ List.foldl (fun m c => max m (f c)) a l := by
  induction l with
  | nil => intro a; simp
  | cons hd tl ih =>
      intro a
      exact le_trans (le_max_left a (f hd)) (ih (max a (f hd)))

theorem foldlMax_ge_mem {A : Type} (f : A → Int) {l : List A} {c : A}
    (h : c ∈ l) : ∀ a : Int, f c ≤ List.foldl (fun m c => max m (f c)) a l := by
  induction l with
  | nil => cases h
  | cons hd tl ih =>
      intro a
      rcases List.mem_cons.mp h with rfl | hmem
      · exact le_trans (le_max_right a (f c))
          (foldlMax_ge_start f tl (max a (f c)))
      · exact ih hmem (max a (f hd))

theorem foldlMax_attained {A : Type} (f : A → Int) (l : List A) :
    ∀ a : Int, List.foldl (fun m c => max m (f c)) a l = a ∨
      ∃ c ∈ l, List.foldl (fun m c => max m (f c)) a l = f c := by
  induction l with
  | nil => intro a; left; rfl
  | cons hd tl ih =>
      intro a
      simp only [List.foldl_cons]
      rcases ih (max a (f hd)) with h | ⟨c, hc, hv⟩
      · rcases max_cases a (f hd) with ⟨he, _⟩ | ⟨he, _⟩
        · left; rw [h, he]
        · right; exact ⟨hd, List.mem_cons_self hd tl, by rw [h, he]⟩
      · right; exact ⟨c, List.mem_cons_of_mem hd hc, hv⟩

theorem lookupKV_insertKV (t : List ((Int × Int) × CellMsg))
    (k k1 : Int × Int) (v : CellMsg) :
    lookupKV (insertKV t k v) k1 =
      if k = k1 then some v else lookupKV t k1 := by
  induction t with
  | nil => rfl
  | cons p rest ih =>
      obtain ⟨k0, v0⟩ := p
      by_cases h0 : k0 = k
      · subst h0
        simp only [insertKV, if_pos rfl, lookupKV]
        by_cases h1 : k0 = k1
        · subst h1; simp
        · simp [h1]
      · simp only [insertKV, if_neg h0, lookupKV, ih]
        by_cases h1 : k0 = k1
        · subst h1
          have : ¬ k = k0 := fun he => h0 he.symm
          simp [this]
        · simp [h1]

theorem lookupKV_buildAux (cells : List CellMsg) :
    ∀ (t : List ((Int × Int) × CellMsg)) (k : Int × Int),
      lookupKV (cells.foldl (fun t c => insertKV t (c.x, c.y) c) t) k =
        (cells.foldl (fun acc c => if (c.x, c.y) = k then some c else acc)
          (lookupKV t k)) := by
  induction cells with
  | nil => intro t k; rfl
  | cons c rest ih =>
      intro t k
      simp only [List.foldl_cons]
      rw [ih (insertKV t (c.x, c.y) c) k, lookupKV_insertKV]

theorem lookupKV_buildMapCells (cells : List CellMsg) (k : Int × Int) :
    lookupKV (buildMapCells cells) k = lastListed cells k := by
  unfold buildMapCells lastListed
  rw [lookupKV_buildAux cells [] k]
  rfl

theorem foldlLast_acc (k : Int × Int) (cells : List CellMsg) :
    ∀ acc : Option CellMsg,
      cells.foldl (fun acc c => if (c.x, c.y) = k then some c else acc) acc =
        match cells.foldl
            (fun acc c => if (c.x, c.y) = k then some c else acc) none with
        | some c => some c
        | none => acc := by
  induction cells with
  | nil => intro acc; rfl
  | cons c rest ih =>
      intro acc
      simp only [List.foldl_cons]
      rw [ih (if (c.x, c.y) = k then some c else acc),
          ih (if (c.x, c.y) = k then some c else none)]
      rcases hl : rest.foldl
          (fun acc c => if (c.x, c.y) = k then some c else acc) none
        with _ | d
      · rw [hl]
        by_cases hc : (c.x, c.y) = k <;> simp [hc]
      · rw [hl]

theorem lastListed_cons (k : Int × Int) (c : CellMsg)
    (rest : List CellMsg) :
    lastListed (c :: rest) k =
      match lastListed rest k with
      | some d => some d
      | none => if (c.x, c.y) = k then some c else none := by
  show (c :: rest).foldl
      (fun acc c => if (c.x, c.y) = k then some c else acc) none = _
  simp only [List.foldl_cons]
  exact foldlLast_acc k rest (if (c.x, c.y) = k then some c else none)

theorem lastListed_isSome_iff (cells : List CellMsg) (k : Int × Int) :
    (lastListed cells k).isSome = true ↔ ∃ c ∈ cells, (c.x, c.y) = k := by
  induction cells with
  | nil => simp [lastListed]
  | cons c rest ih =>
      rw [lastListed_cons]
      rcases hl : lastListed rest k with _ | d
      · rw [hl] at ih
        show (if (c.x, c.y) = k then some c else none).isSome = true ↔ _
        by_cases hc : (c.x, c.y) = k
        · rw [if_pos hc]
          constructor
          · intro _; exact ⟨c, List.mem_cons_self c rest, hc⟩
          · intro _; rfl
        · rw [if_neg hc]
          constructor
          · intro h; exact Bool.noConfusion h
          · rintro ⟨e, he, hke⟩
            rcases List.mem_cons.mp he with rfl | hmem
            · exact absurd hke hc
            · have : (none : Option CellMsg).isSome = true :=
                ih.mpr ⟨e, hmem, hke⟩
              exact Bool.noConfusion this
      · rw [hl] at ih
        show (some d).isSome = true ↔ _
        constructor
        · intro _
          rcases ih.mp rfl with ⟨e, he, hke⟩
          exact ⟨e, List.mem_cons_of_mem c he, hke⟩
        · intro _; rfl

theorem lastListed_mem (cells : List CellMsg) (k : Int × Int)
    (c : CellMsg) : lastListed cells k = some c →
      c ∈ cells ∧ (c.x, c.y) = k := by
  induction cells with
  | nil => intro h; exact Option.noConfusion h
  | cons d rest ih =>
      rw [lastListed_cons]
      rcases hl : lastListed rest k with _ | e
      · show (if (d.x, d.y) = k then some d else none) = some c → _
        by_cases hd : (d.x, d.y) = k
        · rw [if_pos hd]
          intro h
          obtain rfl : d = c := Option.some_inj.mp h
          exact ⟨List.mem_cons_self d rest, hd⟩
        · rw [if_neg hd]
          intro h; exact Option.noConfusion h
      · show some e = some c → _
        intro h
        obtain rfl : e = c := Option.some_inj.mp h
        rcases ih hl with ⟨hmem, hke⟩
        exact ⟨List.mem_cons_of_mem d hmem, hke⟩

/-- The four bound fields and the viewport of a non-empty chunk load. -/
theorem initFullMap_fields (cells : List CellMsg) (s : SimState)
    (hne : cells ≠ []) :
    (initFullMap cells s).mapCells = buildMapCells cells ∧
    (initFullMap cells s).mapMinX = foldMinX cells ∧
    (initFullMap cells s).mapMinY = foldMinY cells ∧
    (initFullMap cells s).mapMaxX = foldMaxX cells ∧
    (initFullMap cells s).mapMaxY = foldMaxY cells ∧
    (initFullMap cells s).viewportX = foldMinX cells ∧
    (initFullMap cells s).viewportY = foldMinY cells := by
  have hlen : cells.length > 0 := List.length_pos.mpr hne
  unfold initFullMap
  simp [hlen]

theorem foldMinX_le_mem {cells : List CellMsg} {c : CellMsg}
    (h : c ∈ cells) : foldMinX cells ≤ c.x :=
  foldlMin_le_mem (fun c => c.x) h MAP_SIZE_CELLS

theorem foldMinY_le_mem {cells : List CellMsg} {c : CellMsg}
    (h : c ∈ cells) : foldMinY cells ≤ c.y :=
  foldlMin_le_mem (fun c => c.y) h MAP_SIZE_CELLS

theorem foldMaxX_ge_mem {cells : List CellMsg} {c : CellMsg}
    (h : c ∈ cells) : c.x ≤ foldMaxX cells :=
  foldlMax_ge_mem (fun c => c.x) h 0

theorem foldMaxY_ge_mem {cells : List CellMsg} {c : CellMsg}
    (h : c ∈ cells) : c.y ≤ foldMaxY cells :=
  foldlMax_ge_mem (fun c => c.y) h 0

/-- After a non-empty chunk load the unloaded sentinel test of
clampViewport can never hold: it would force a cell x at or above
MAP_SIZE_CELLS and at or below zero at once. -/
theorem sentinel_impossible_of_ne_nil {cells : List CellMsg}
    (hne : cells ≠ []) :
    ¬(foldMaxX cells = 0 ∧ foldMinX cells = MAP_SIZE_CELLS) := by
  rintro ⟨hmax, hmin⟩
  obtain ⟨c, hc⟩ := List.exists_mem_of_ne_nil cells hne
  have h1 := foldMinX_le_mem hc
  have h2 := foldMaxX_ge_mem hc
  rw [hmin] at h1
  rw [hmax] at h2
  have : MAP_SIZE_CELLS = (1000 : Int) := rfl
  omega

/-- The accumulated minimum is attained by a listed cell as soon as some
coordinate does not exceed the starting sentinel. -/
theorem foldMinX_attained {cells : List CellMsg} (hne : cells ≠ [])
    (hx : ∀ c ∈ cells, c.x ≤ MAP_SIZE_CELLS) :
    ∃ c ∈ cells, foldMinX cells = c.x := by
  rcases foldlMin_attained (fun c => c.x) cells MAP_SIZE_CELLS with h | h
  · obtain ⟨c, hc⟩ := List.exists_mem_of_ne_nil cells hne
    refine ⟨c, hc, ?_⟩
    have h1 := foldMinX_le_mem hc
    have h2 := hx c hc
    have h3 : foldMinX cells = MAP_SIZE_CELLS := h
    omega
  · exact h

theorem foldMinY_attained {cells : List CellMsg} (hne : cells ≠ [])
    (hy : ∀ c ∈ cells, c.y ≤ MAP_SIZE_CELLS) :
    ∃ c ∈ cells, foldMinY cells = c.y := by
  rcases foldlMin_attained (fun c => c.y) cells MAP_SIZE_CELLS with h | h
  · obtain ⟨c, hc⟩ := List.exists_mem_of_ne_nil cells hne
    refine ⟨c, hc, ?_⟩
    have h1 := foldMinY_le_mem hc
    have h2 := hy c hc
    have h3 : foldMinY cells = MAP_SIZE_CELLS := h
    omega
  · exact h

theorem foldMaxX_attained {cells : List CellMsg} (hne : cells ≠ [])
    (hx : ∀ c ∈ cells, 0 ≤ c.x) :
    ∃ c ∈ cells, foldMaxX cells = c.x := by
  rcases foldlMax_attained (fun c => c.x) cells 0 with h | h
  · obtain ⟨c, hc⟩ := List.exists_mem_of_ne_nil cells hne
    refine ⟨c, hc, ?_⟩
    have h1 := foldMaxX_ge_mem hc
    have h2 := hx c hc
    have h3 : foldMaxX cells = 0 := h
    omega
  · exact h

theorem foldMaxY_attained {cells : List CellMsg} (hne : cells ≠ [])
    (hy : ∀ c ∈ cells, 0 ≤ c.y) :
    ∃ c ∈ cells, foldMaxY cells = c.y := by
  rcases foldlMax_attained (fun c => c.y) cells 0 with h | h
  · obtain ⟨c, hc⟩ := List.exists_mem_of_ne_nil cells hne
    refine ⟨c, hc, ?_⟩
    have h1 := foldMaxY_ge_mem hc
    have h2 := hy c hc
    have h3 : foldMaxY cells = 0 := h
    omega
  · exact h

/-- clampViewport writes only the viewport origin. -/
theorem clampViewport_bounds (x y : Int) (s : SimState) :
    (clampViewport x y s).mapMinX = s.mapMinX ∧
    (clampViewport x y s).mapMinY = s.mapMinY ∧
    (clampViewport x y s).mapMaxX = s.mapMaxX ∧
    (clampViewport x y s).mapMaxY = s.mapMaxY := by
  unfold clampViewport
  split <;> simp

/-- C2: Viewport clamping is idempotent: for every candidate origin and
every bounds state, loaded or not, clamping the result of a clamp at the
same bounds yields the same viewport origin. -/
theorem clamp_idempotent (x y : Int) (s : SimState) :
    clampViewport (clampViewport x y s).viewportX
      (clampViewport x y s).viewportY (clampViewport x y s) =
      clampViewport x y s := by
  unfold clampViewport
  by_cases h : s.mapMaxX = 0 ∧ s.mapMinX = MAP_SIZE_CELLS
  · simp only [h, and_self, if_true]
  · simp only [h, if_false]
    ext <;> simp
    · omega
    · omega

/-- A state whose viewport origin sits at the minimum bound is a fixed
point of clampViewport whenever the unloaded sentinel test fails. -/
theorem clampViewport_at_min (s : SimState) (hvx : s.viewportX = s.mapMinX)
    (hvy : s.viewportY = s.mapMinY)
    (hsent : ¬(s.mapMaxX = 0 ∧ s.mapMinX = MAP_SIZE_CELLS)) :
    clampViewport s.viewportX s.viewportY s = s := by
  have hx : max s.mapMinX (min s.viewportX
      (s.mapMaxX - (VIEWPORT_SIZE_CELLS : Int) + 1)) = s.viewportX := by
    rw [hvx]; omega
  have hy : max s.mapMinY (min s.viewportY
      (s.mapMaxY - (VIEWPORT_SIZE_CELLS : Int) + 1)) = s.viewportY := by
    rw [hvy]; omega
  unfold clampViewport
  rw [if_neg hsent, hx, hy]

/-- C1, amended: a full_map_init or update_map message with a non-empty
cell list replaces the cell table with exactly the listed cells (each
coordinate key maps to the last listed cell carrying it, and no other
key is present), the recomputed bounds satisfy min at most max on both
axes, the bounds are the exact minima and maxima of the listed
coordinates whenever those lie within 0 to MAP_SIZE_CELLS (the folds
start from the sentinels MAP_SIZE_CELLS and 0, so coordinates outside
that range are truncated to them), the viewport origin snaps to the new
minimum bound, and the resulting state is a fixed point of
clampViewport. -/
theorem full_map_init_spec (cells : List CellMsg) (s : SimState)
    (hne : cells ≠ []) :
    (∀ k, lookupKV (initFullMap cells s).mapCells k = lastListed cells k) ∧
    (∀ k, (lookupKV (initFullMap cells s).mapCells k).isSome = true ↔
      ∃ c ∈ cells, (c.x, c.y) = k) ∧
    (∀ k c, lookupKV (initFullMap cells s).mapCells k = some c →
      c ∈ cells ∧ (c.x, c.y) = k) ∧
    (initFullMap cells s).mapMinX ≤ (initFullMap cells s).mapMaxX ∧
    (initFullMap cells s).mapMinY ≤ (initFullMap cells s).mapMaxY ∧
    (initFullMap cells s).viewportX = (initFullMap cells s).mapMinX ∧
    (initFullMap cells s).viewportY = (initFullMap cells s).mapMinY ∧
    ((∀ c ∈ cells, 0 ≤ c.x ∧ c.x ≤ MAP_SIZE_CELLS ∧ 0 ≤ c.y ∧
        c.y ≤ MAP_SIZE_CELLS) →
      (∃ c ∈ cells, (initFullMap cells s).mapMinX = c.x) ∧
      (∀ c ∈ cells, (initFullMap cells s).mapMinX ≤ c.x) ∧
      (∃ c ∈ cells, (initFullMap cells s).mapMaxX = c.x) ∧
      (∀ c ∈ cells, c.x ≤ (initFullMap cells s).mapMaxX) ∧
      (∃ c ∈ cells, (initFullMap cells s).mapMinY = c.y) ∧
      (∀ c ∈ cells, (initFullMap cells s).mapMinY ≤ c.y) ∧
      (∃ c ∈ cells, (initFullMap cells s).mapMaxY = c.y) ∧
      (∀ c ∈ cells, c.y ≤ (initFullMap cells s).mapMaxY)) ∧
    clampViewport (initFullMap cells s).viewportX
      (initFullMap cells s).viewportY (initFullMap cells s) =
      initFullMap cells s := by
  obtain ⟨hcells, hminx, hminy, hmaxx, hmaxy, hvx, hvy⟩ :=
    initFullMap_fields cells s hne
  obtain ⟨c0, hc0⟩ := List.exists_mem_of_ne_nil cells hne
  refine ⟨?_, ?_, ?_, ?_, ?_, ?_, ?_, ?_, ?_⟩
  · intro k; rw [hcells, lookupKV_buildMapCells]
  · intro k
    rw [hcells, lookupKV_buildMapCells]
    exact lastListed_isSome_iff cells k
  · intro k c h
    rw [hcells, lookupKV_buildMapCells] at h
    exact lastListed_mem cells k c h
  · rw [hminx, hmaxx]
    exact le_trans (foldMinX_le_mem hc0) (foldMaxX_ge_mem hc0)
  · rw [hminy, hmaxy]
    exact le_trans (foldMinY_le_mem hc0) (foldMaxY_ge_mem hc0)
  · rw [hvx, hminx]
  · rw [hvy, hminy]
  · intro hin
    refine ⟨?_, ?_, ?_, ?_, ?_, ?_, ?_, ?_⟩
    · rw [hminx]; exact foldMinX_attained hne (fun c hc => (hin c hc).2.1)
    · intro c hc; rw [hminx]; exact foldMinX_le_mem hc
    · rw [hmaxx]; exact foldMaxX_attained hne (fun c hc => (hin c hc).1)
    · intro c hc; rw [hmaxx]; exact foldMaxX_ge_mem hc
    · rw [hminy]; exact foldMinY_attained hne (fun c hc => (hin c hc).2.2.2)
    · intro c hc; rw [hminy]; exact foldMinY_le_mem hc
    · rw [hmaxy]; exact foldMaxY_attained hne (fun c hc => (hin c hc).2.2.1)
    · intro c hc; rw [hmaxy]; exact foldMaxY_ge_mem hc
  · apply clampViewport_at_min
    · rw [hvx, hminx]
    · rw [hvy, hminy]
    · rw [hmaxx, hminx]
      exact sentinel_impossible_of_ne_nil hne

/-- C1, counterexample to the claim as stated: a chunk whose single cell
sits at x = 1500, outside the map range, yields mapMinX = 1000 (the fold
sentinel MAP_SIZE_CELLS) although the exact minimum of the listed x
coordinates is 1500. -/
theorem full_map_init_bounds_not_exact_cex :
    (initFullMap [⟨1500, 500, []⟩] initialState).mapMinX = 1000 ∧
    (⟨1500, 500, []⟩ : CellMsg).x = 1500 ∧
    (1000 : Int) ≠ 1500 :=
  ⟨rfl, rfl, by decide⟩

/-- Witness for C1 at a concrete one-cell chunk. -/
theorem full_map_init_spec_witness :
    lookupKV (initFullMap [⟨3, 4, []⟩] initialState).mapCells (3, 4) =
      lastListed [⟨3, 4, []⟩] (3, 4) ∧
    (initFullMap [⟨3, 4, []⟩] initialState).mapMinX ≤
      (initFullMap [⟨3, 4, []⟩] initialState).mapMaxX ∧
    clampViewport (initFullMap [⟨3, 4, []⟩] initialState).viewportX
      (initFullMap [⟨3, 4, []⟩] initialState).viewportY
      (initFullMap [⟨3, 4, []⟩] initialState) =
      initFullMap [⟨3, 4, []⟩] initialState :=
  ⟨(full_map_init_spec [⟨3, 4, []⟩] initialState (by decide)).1 (3, 4),
   (full_map_init_spec [⟨3, 4, []⟩] initialState (by decide)).2.2.2.1,
   (full_map_init_spec [⟨3, 4, []⟩] initialState
     (by decide)).2.2.2.2.2.2.2.2⟩

/-- C8: a map_cell_update whose coordinate is not a key of the current
cell table leaves the whole state unchanged and raises no error (the
handler is total). -/
theorem cell_patch_unknown_noop (s : SimState) (x y : Int) (updates : Obj)
    (h : lookupKV s.mapCells (x, y) = none) :
    updateMapCell x y updates s = s := by
  unfold updateMapCell
  rw [h]

/-- Witness for C8: a patch at coordinate (5, 7) of the empty initial
table is a no-op. -/
theorem cell_patch_unknown_noop_witness :
    lookupKV initialState.mapCells (5, 7) = none ∧
    updateMapCell 5 7 [("terrain", Value.num 1)] initialState =
      initialState :=
  ⟨rfl, cell_patch_unknown_noop initialState 5 7
    [("terrain", Value.num 1)] rfl⟩

/-- A cell patch never changes the bounds. -/
theorem updateMapCell_bounds (x y : Int) (u : Obj) (s : SimState) :
    (updateMapCell x y u s).mapMinX = s.mapMinX ∧
    (updateMapCell x y u s).mapMinY = s.mapMinY ∧
    (updateMapCell x y u s).mapMaxX = s.mapMaxX ∧
    (updateMapCell x y u s).mapMaxY = s.mapMaxY := by
  rcases hl : lookupKV s.mapCells (x, y) with _ | c <;>
    simp [updateMapCell, hl]

/-- A resource discovery never changes the bounds. -/
theorem addResource_bounds (r : ResourceObj) (s : SimState) :
    (addResource r s).mapMinX = s.mapMinX ∧
    (addResource r s).mapMinY = s.mapMinY ∧
    (addResource r s).mapMaxX = s.mapMaxX ∧
    (addResource r s).mapMaxY = s.mapMaxY := by
  unfold addResource
  split <;> simp

/-- Marking a cell explored never changes the bounds. -/
theorem markCellExplored_bounds (x y : Int) (s : SimState) :
    (markCellExplored x y s).mapMinX = s.mapMinX ∧
    (markCellExplored x y s).mapMinY = s.mapMinY ∧
    (markCellExplored x y s).mapMaxX = s.mapMaxX ∧
    (markCellExplored x y s).mapMaxY = s.mapMaxY := by
  unfold markCellExplored
  split <;> simp

/-- Every event other than a chunk load keeps all-zero bounds all
zero. -/
theorem applyEvent_zero_bounds (s : SimState) (e : Event)
    (h1 : s.mapMinX = 0) (h2 : s.mapMinY = 0) (h3 : s.mapMaxX = 0)
    (h4 : s.mapMaxY = 0) (hc : isChunkLoad e = false) :
    (applyEvent s e).mapMinX = 0 ∧ (applyEvent s e).mapMinY = 0 ∧
    (applyEvent s e).mapMaxX = 0 ∧ (applyEvent s e).mapMaxY = 0 := by
  cases e with
  | message m =>
      cases m with
      | fullMapInit cells => exact absurd hc (by simp [isChunkLoad])
      | updateMap cells => exact absurd hc (by simp [isChunkLoad])
      | mapCellUpdate x y u =>
          have hb := updateMapCell_bounds x y u s
          exact ⟨hb.1.trans h1, hb.2.1.trans h2, hb.2.2.1.trans h3,
            hb.2.2.2.trans h4⟩
      | agentUpdate a => exact ⟨h1, h2, h3, h4⟩
      | resourceDiscovered r =>
          have hb := addResource_bounds r s
          exact ⟨hb.1.trans h1, hb.2.1.trans h2, hb.2.2.1.trans h3,
            hb.2.2.2.trans h4⟩
      | hazardDetected h => exact ⟨h1, h2, h3, h4⟩
      | cellExplored x y =>
          have hb := markCellExplored_bounds x y s
          exact ⟨hb.1.trans h1, hb.2.1.trans h2, hb.2.2.1.trans h3,
            hb.2.2.2.trans h4⟩
      | logMessage => exact ⟨h1, h2, h3, h4⟩
      | stats => exact ⟨h1, h2, h3, h4⟩
      | simStarted => exact ⟨h1, h2, h3, h4⟩
      | simStopped => exact ⟨h1, h2, h3, h4⟩
      | simPaused => exact ⟨h1, h2, h3, h4⟩
      | simResumed => exact ⟨h1, h2, h3, h4⟩
      | errorReport => exact ⟨h1, h2, h3, h4⟩
  | pan x y =>
      have he : applyEvent s (Event.pan x y) = s := by
        show (if s.mapMaxX = 0 then s else clampViewport x y s) = s
        rw [if_pos h3]
      rw [he]
      exact ⟨h1, h2, h3, h4⟩
  | select a => exact ⟨h1, h2, h3, h4⟩
  | reset => exact ⟨rfl, rfl, rfl, rfl⟩

/-- A chunk-free event sequence keeps all-zero bounds all zero. -/
theorem applyEvents_zero_bounds (es : List Event) :
    ∀ s : SimState, s.mapMinX = 0 → s.mapMinY = 0 → s.mapMaxX = 0 →
      s.mapMaxY = 0 → (∀ e ∈ es, isChunkLoad e = false) →
      (applyEvents es s).mapMinX = 0 ∧ (applyEvents es s).mapMinY = 0 ∧
      (applyEvents es s).mapMaxX = 0 ∧ (applyEvents es s).mapMaxY = 0 := by
  induction es with
  | nil => intro s h1 h2 h3 h4 _; exact ⟨h1, h2, h3, h4⟩
  | cons e rest ih =>
      intro s h1 h2 h3 h4 hall
      have hstep := applyEvent_zero_bounds s e h1 h2 h3 h4
        (hall e (List.mem_cons_self e rest))
      exact ih (applyEvent s e) hstep.1 hstep.2.1 hstep.2.2.1 hstep.2.2.2
        (fun x hx => hall x (List.mem_cons_of_mem e hx))

/-- C10, amended: in every state reached from a reset by events that
contain no chunk load at all, the bounds remain all zero; that state
does not satisfy the unloaded sentinel test of clampViewport (its
mapMinX is 0, not MAP_SIZE_CELLS), yet every candidate is clamped to the
origin because the maximum start coordinate is negative and the outer
max with mapMinX = 0 dominates. -/
theorem post_reset_clamp_pins_origin (s0 : SimState) (es : List Event)
    (h : ∀ e ∈ es, isChunkLoad e = false) :
    (applyEvents es (resetSimulation s0)).mapMinX = 0 ∧
    (applyEvents es (resetSimulation s0)).mapMinY = 0 ∧
    (applyEvents es (resetSimulation s0)).mapMaxX = 0 ∧
    (applyEvents es (resetSimulation s0)).mapMaxY = 0 ∧
    ¬((applyEvents es (resetSimulation s0)).mapMaxX = 0 ∧
      (applyEvents es (resetSimulation s0)).mapMinX = MAP_SIZE_CELLS) ∧
    ∀ x y : Int,
      (clampViewport x y (applyEvents es (resetSimulation s0))).viewportX
        = 0 ∧
      (clampViewport x y (applyEvents es (resetSimulation s0))).viewportY
        = 0 := by
  obtain ⟨h1, h2, h3, h4⟩ :=
    applyEvents_zero_bounds es (resetSimulation s0) rfl rfl rfl rfl h
  have hsent : ¬((applyEvents es (resetSimulation s0)).mapMaxX = 0 ∧
      (applyEvents es (resetSimulation s0)).mapMinX = MAP_SIZE_CELLS) := by
    rintro ⟨_, hmin⟩
    rw [h1] at hmin
    exact absurd hmin (by decide)
  refine ⟨h1, h2, h3, h4, hsent, fun x y => ?_⟩
  have hV : (VIEWPORT_SIZE_CELLS : Int) = 100 := rfl
  unfold clampViewport
  rw [if_neg hsent]
  constructor
  · show max (applyEvents es (resetSimulation s0)).mapMinX _ = 0
    rw [h1, h3, hV]
    omega
  · show max (applyEvents es (resetSimulation s0)).mapMinY _ = 0
    rw [h2, h4, hV]
    omega

/-- C10, counterexample to the claim as stated: an empty chunk load is
not a non-empty chunk load, yet after reset it moves mapMinX to
MAP_SIZE_CELLS, so the bounds are no longer all zero. -/
theorem post_reset_empty_chunk_cex :
    isNonEmptyChunkLoad (Event.message (Msg.fullMapInit [])) = false ∧
    (applyEvents [Event.message (Msg.fullMapInit [])]
      (resetSimulation initialState)).mapMinX = MAP_SIZE_CELLS ∧
    MAP_SIZE_CELLS ≠ (0 : Int) := by
  exact ⟨rfl, rfl, by decide⟩

/-- Witness for C10 at a concrete chunk-free event sequence and a
concrete clamp candidate. -/
theorem post_reset_clamp_pins_origin_witness :
    (applyEvents [Event.pan 3 4] (resetSimulation initialState)).mapMinX
      = 0 ∧
    (clampViewport 77 (-5)
      (applyEvents [Event.pan 3 4]
        (resetSimulation initialState))).viewportX = 0 ∧
    (clampViewport 77 (-5)
      (applyEvents [Event.pan 3 4]
        (resetSimulation initialState))).viewportY = 0 := by
  have h := post_reset_clamp_pins_origin initialState [Event.pan 3 4]
    (by intro e he; rw [List.mem_singleton.mp he]; rfl)
  exact ⟨h.1, (h.2.2.2.2.2 77 (-5)).1, (h.2.2.2.2.2 77 (-5)).2⟩

/-- No event of the main.js client ever writes the hazards array: the
hazard_detected handler only logs, and resetSimulation does not touch
the array. -/
theorem applyEvent_hazards (s : SimState) (e : Event) :
    (applyEvent s e).hazards = s.hazards := by
  cases e with
  | message m =>
      cases m with
      | fullMapInit cells =>
          show (initFullMap cells s).hazards = s.hazards
          unfold initFullMap
          split <;> rfl
      | updateMap cells =>
          show (initFullMap cells s).hazards = s.hazards
          unfold initFullMap
          split <;> rfl
      | mapCellUpdate x y u =>
          rcases hl : lookupKV s.mapCells (x, y) with _ | c <;>
            simp [applyEvent, handleMessage, updateMapCell, hl]
      | agentUpdate a => rfl
      | resourceDiscovered r =>
          show (addResource r s).hazards = s.hazards
          unfold addResource
          split <;> rfl
      | hazardDetected h => rfl
      | cellExplored x y =>
          show (markCellExplored x y s).hazards = s.hazards
          unfold markCellExplored
          split <;> rfl
      | logMessage => rfl
      | stats => rfl
      | simStarted => rfl
      | simStopped => rfl
      | simPaused => rfl
      | simResumed => rfl
      | errorReport => rfl
  | pan x y =>
      show (if s.mapMaxX = 0 then s else clampViewport x y s).hazards
        = s.hazards
      split
      · rfl
      · unfold clampViewport
        split <;> rfl
  | select a => rfl
  | reset => rfl

/-- The hazards array is invariant under every event sequence of the
main.js client. -/
theorem applyEvents_hazards (es : List Event) :
    ∀ s : SimState, (applyEvents es s).hazards = s.hazards := by
  induction es with
  | nil => intro s; rfl
  | cons e rest ih =>
      intro s
      exact (ih (applyEvent s e)).trans (applyEvent_hazards s e)

/-- C4, amended: resetSimulation of main.js clears the agents,
resources, explored set, cell table and selection, zeroes the bounds and
pins the viewport to the origin from any prior state, but leaves the
hazards array exactly as it was; the part_000 reset clears the hazards
array as well.  In main.js no event ever writes the hazards array, so it
is empty in every reachable state and the post-reset state is fully
cleared there. -/
theorem reset_clears_state (s : SimState) :
    (resetSimulation s).agents = [] ∧
    (resetSimulation s).resources = [] ∧
    (resetSimulation s).exploredCells = [] ∧
    (resetSimulation s).mapCells = [] ∧
    (resetSimulation s).selectedAgent = none ∧
    (resetSimulation s).viewportX = 0 ∧
    (resetSimulation s).viewportY = 0 ∧
    (resetSimulation s).mapMinX = 0 ∧
    (resetSimulation s).mapMinY = 0 ∧
    (resetSimulation s).mapMaxX = 0 ∧
    (resetSimulation s).mapMaxY = 0 ∧
    (resetSimulation s).hazards = s.hazards ∧
    (part0resetSimulation s).hazards = [] ∧
    (part0resetSimulation s).agents = [] ∧
    (part0resetSimulation s).resources = [] ∧
    (part0resetSimulation s).exploredCells = [] ∧
    (part0resetSimulation s).mapCells = [] ∧
    (part0resetSimulation s).selectedAgent = none ∧
    (part0resetSimulation s).viewportX = 0 ∧
    (part0resetSimulation s).viewportY = 0 ∧
    (∀ es : List Event, (applyEvents es initialState).hazards = []) :=
  ⟨rfl, rfl, rfl, rfl, rfl, rfl, rfl, rfl, rfl, rfl, rfl, rfl, rfl, rfl,
   rfl, rfl, rfl, rfl, rfl, rfl,
   fun es => applyEvents_hazards es initialState⟩

/-- C4, counterexample to the claim as stated: main.js resetSimulation
applied to a state holding one hazard leaves that hazard in place. -/
theorem reset_keeps_hazards_cex :
    (resetSimulation { initialState with
        hazards := [⟨"h1", []⟩] }).hazards = [⟨"h1", []⟩] ∧
    ([⟨"h1", []⟩] : List HazardObj) ≠ [] :=
  ⟨rfl, by decide⟩

/-- C5, amended: in the part_000 client, a hazard_detected for an
unknown id appends exactly one entry and changes nothing else, while a
detection for a known id is a complete no-op (no second entry, no
overwrite); in the main.js client the handler stores nothing at all, so
no entry is ever created and duplicates are trivially no-ops. -/
theorem hazard_dedup_insert (s : SimState) (h : HazardObj) :
    ((∀ q ∈ s.hazards, q.id ≠ h.id) →
      part0addHazard h s = { s with hazards := s.hazards ++ [h] }) ∧
    ((∃ q ∈ s.hazards, q.id = h.id) → part0addHazard h s = s) ∧
    addHazard h s = s := by
  refine ⟨?_, ?_, rfl⟩
  · intro hnone
    have hcond : s.hazards.any (fun q => q.id = h.id) = false := by
      rw [List.any_eq_false]
      intro q hq
      simpa using hnone q hq
    unfold part0addHazard
    rw [hcond]
    rfl
  · rintro ⟨q, hq, hid⟩
    have hcond : s.hazards.any (fun q => q.id = h.id) = true :=
      List.any_eq_true.mpr ⟨q, hq, by simpa using hid⟩
    unfold part0addHazard
    rw [hcond]
    rfl

/-- C5, counterexample to the claim as stated: the main.js handler never
creates an entry for a fresh hazard id. -/
theorem hazard_not_stored_cex :
    (addHazard ⟨"h1", []⟩ initialState).hazards.length = 0 ∧
    (0 : Nat) ≠ 1 :=
  ⟨rfl, by decide⟩

/-- Witness for C5: a fresh id is appended once, a duplicate id is a
no-op. -/
theorem hazard_dedup_insert_witness :
    part0addHazard ⟨"b", []⟩ { initialState with hazards := [⟨"a", []⟩] }
      = { initialState with hazards := [⟨"a", []⟩, ⟨"b", []⟩] } ∧
    part0addHazard ⟨"a", []⟩ { initialState with hazards := [⟨"a", []⟩] }
      = { initialState with hazards := [⟨"a", []⟩] } :=
  ⟨(hazard_dedup_insert { initialState with hazards := [⟨"a", []⟩] }
      ⟨"b", []⟩).1 (by decide),
   (hazard_dedup_insert { initialState with hazards := [⟨"a", []⟩] }
      ⟨"a", []⟩).2.1 ⟨⟨"a", []⟩, by decide, rfl⟩⟩

/-- The delays of successive closes from a given counter are the
per-attempt delays. -/
theorem closeDelays_formula :
    ∀ (n a : Nat), closeDelays a n =
      (List.range n).map (fun i => reconnectDelay (a + i + 1)) := by
  intro n
  induction n with
  | zero => intro a; rfl
  | succ m ih =>
      intro a
      show (onClose a).2 :: closeDelays (onClose a).1 m = _
      rw [List.range_succ_eq_map, List.map_cons, List.map_map]
      show reconnectDelay (a + 1) :: closeDelays (a + 1) m = _
      rw [ih (a + 1)]
      refine congrArg₂ List.cons ?_ ?_
      · show reconnectDelay (a + 1) = reconnectDelay (a + 0 + 1)
        congr 1
      · apply List.map_congr_left
        intro i _
        show reconnectDelay (a + 1 + i + 1)
          = reconnectDelay (a + (i + 1) + 1)
        congr 1
        omega

/-- C6: the attempt counter resets to zero on every successful open; the
delays of n successive closes from a fresh open are exactly the minimum
of 500 times 2 to the i and the 5000 ms cap, per attempt i starting at
zero; the first six delays are 500, 1000, 2000, 4000, 5000, 5000; and
from the fifth close on the delay stays at the 5000 ms cap. -/
theorem reconnect_backoff_sequence (k : Nat) (hk : 5 ≤ k) :
    (∀ a : Nat, onOpen a = 0) ∧
    (∀ n : Nat, closeDelays 0 n =
      (List.range n).map (fun i => min (500 * 2 ^ i) maxReconnectDelay)) ∧
    closeDelays 0 6 = [500, 1000, 2000, 4000, 5000, 5000] ∧
    reconnectDelay k = 5000 := by
  refine ⟨fun a => rfl, ?_, by decide, ?_⟩
  · intro n
    rw [closeDelays_formula n 0]
    apply List.map_congr_left
    intro i _
    show reconnectDelay (0 + i + 1) = min (500 * 2 ^ i) maxReconnectDelay
    unfold reconnectDelay
    have he : 0 + i + 1 - 1 = i := by omega
    rw [he]
  · have h1 : (16 : Nat) ≤ 2 ^ (k - 1) := by
      calc (16 : Nat) = 2 ^ 4 := by norm_num
      _ ≤ 2 ^ (k - 1) := Nat.pow_le_pow_right (by norm_num) (by omega)
    unfold reconnectDelay maxReconnectDelay
    omega

/-- Witness for C6 at the seventh close. -/
theorem reconnect_backoff_sequence_witness :
    onOpen 3 = 0 ∧
    closeDelays 0 6 = [500, 1000, 2000, 4000, 5000, 5000] ∧
    reconnectDelay 7 = 5000 :=
  ⟨(reconnect_backoff_sequence 7 (by decide)).1 3,
   (reconnect_backoff_sequence 7 (by decide)).2.2.1,
   (reconnect_backoff_sequence 7 (by decide)).2.2.2⟩

/-- Lookup distributes over object concatenation: the left bindings
shadow the right ones. -/
theorem lookupObj_append (xs ys : Obj) (k : String) :
    lookupObj (xs ++ ys) k =
      match lookupObj xs k with
      | some v => some v
      | none => lookupObj ys k := by
  induction xs with
  | nil => rfl
  | cons p rest ih =>
      obtain ⟨k0, v0⟩ := p
      by_cases h : k0 = k <;> simp [lookupObj, h, ih]

/-- Lookup in the unshadowed part of a merge: the bindings kept from the
old object are visible exactly at the keys the new object lacks. -/
theorem lookupObj_filterNot (old new : Obj) (k : String) :
    lookupObj (old.filter (fun p => (lookupObj new p.1).isNone)) k =
      if (lookupObj new k).isNone then lookupObj old k else none := by
  induction old with
  | nil => simp [lookupObj]
  | cons p rest ih =>
      obtain ⟨k0, v0⟩ := p
      rw [List.filter_cons]
      by_cases hk : k0 = k
      · subst hk
        rcases hn : (lookupObj new k0).isNone with _ | _
        · simp [lookupObj, hn, ih]
        · simp [lookupObj, hn]
      · rcases hn : (lookupObj new k0).isNone with _ | _
        · simp [lookupObj, hk, hn, ih]
        · simp [lookupObj, hk, hn, ih]

/-- The spread merge seen through lookup: an incoming field replaces the
same-named field, an absent field is preserved. -/
theorem objMerge_lookup (old new : Obj) (k : String) :
    lookupObj (objMerge old new) k =
      match lookupObj new k with
      | some v => some v
      | none => lookupObj old k := by
  unfold objMerge
  rw [lookupObj_append, lookupObj_filterNot]
  rcases hn : lookupObj new k with _ | v
  · rcases ho : lookupObj old k with _ | w <;> simp [hn, ho]
  · simp [hn]

/-- An update for an id no stored agent carries pushes the incoming
object at the end of the array. -/
theorem updateAgentList_notMem :
    ∀ (l : List AgentObj) (a : AgentObj),
      (∀ q ∈ l, q.id ≠ a.id) → updateAgentList l a = l ++ [a] := by
  intro l a
  induction l with
  | nil => intro _; rfl
  | cons x xs ih =>
      intro hnone
      have hx : x.id ≠ a.id := hnone x (List.mem_cons_self x xs)
      unfold updateAgentList
      rw [if_neg hx, ih (fun q hq => hnone q (List.mem_cons_of_mem x hq))]
      rfl

/-- C7: an agent_update for an unknown id creates exactly one new entry
at the end of the array; for a known id the first matching entry is
shallow field-merged in place (incoming fields win, absent fields are
preserved, the rest of the array is untouched); and updateAgent only
rewrites the agents array. -/
theorem agent_upsert_spec (l rest : List AgentObj) (a old : AgentObj) :
    ((∀ q ∈ l, q.id ≠ a.id) → updateAgentList l a = l ++ [a]) ∧
    (old.id = a.id →
      updateAgentList (old :: rest) a =
        { id := old.id, fields := objMerge old.fields a.fields } :: rest) ∧
    (∀ k, lookupObj (objMerge old.fields a.fields) k =
      match lookupObj a.fields k with
      | some v => some v
      | none => lookupObj old.fields k) ∧
    (∀ s : SimState,
      updateAgent a s = { s with agents := updateAgentList s.agents a }) := by
  refine ⟨updateAgentList_notMem l a, ?_,
    fun k => objMerge_lookup old.fields a.fields k, fun s => rfl⟩
  intro hid
  unfold updateAgentList
  rw [if_pos hid]

/-- Witness for C7: the example of the spec.  Starting from no agents,
an update for the unknown id r1 creates one entry; merging battery 40
then battery 30 with status ok yields battery 30 and status ok; an
update carrying only battery leaves the stored position untouched. -/
theorem agent_upsert_spec_witness :
    updateAgentList [] ⟨"r1", [("battery", Value.num 40)]⟩ =
      [⟨"r1", [("battery", Value.num 40)]⟩] ∧
    lookupObj (objMerge [("battery", Value.num 40)]
      [("battery", Value.num 30), ("status", Value.str "ok")]) "battery" =
      some (Value.num 30) ∧
    lookupObj (objMerge [("battery", Value.num 40)]
      [("battery", Value.num 30), ("status", Value.str "ok")]) "status" =
      some (Value.str "ok") ∧
    updateAgentList
      [⟨"r1", [("x", Value.num 250), ("y", Value.num 250),
        ("battery", Value.num 90)]⟩]
      ⟨"r1", [("battery", Value.num 10)]⟩ =
      [⟨"r1", objMerge [("x", Value.num 250), ("y", Value.num 250),
        ("battery", Value.num 90)] [("battery", Value.num 10)]⟩] ∧
    lookupObj (objMerge [("x", Value.num 250), ("y", Value.num 250),
      ("battery", Value.num 90)] [("battery", Value.num 10)]) "x" =
      some (Value.num 250) ∧
    lookupObj (objMerge [("x", Value.num 250), ("y", Value.num 250),
      ("battery", Value.num 90)] [("battery", Value.num 10)]) "battery" =
      some (Value.num 10) := by
  refine ⟨?_, ?_, ?_, ?_, ?_, ?_⟩
  · exact (agent_upsert_spec [] [] ⟨"r1", [("battery", Value.num 40)]⟩
      ⟨"r1", []⟩).1 (by decide)
  · exact ((agent_upsert_spec [] [] ⟨"r1", [("battery", Value.num 30),
      ("status", Value.str "ok")]⟩
      ⟨"r1", [("battery", Value.num 40)]⟩).2.2.1 "battery").trans rfl
  · exact ((agent_upsert_spec [] [] ⟨"r1", [("battery", Value.num 30),
      ("status", Value.str "ok")]⟩
      ⟨"r1", [("battery", Value.num 40)]⟩).2.2.1 "status").trans rfl
  · exact (agent_upsert_spec []
      [] ⟨"r1", [("battery", Value.num 10)]⟩
      ⟨"r1", [("x", Value.num 250), ("y", Value.num 250),
        ("battery", Value.num 90)]⟩).2.1 rfl
  · exact ((agent_upsert_spec [] [] ⟨"r1", [("battery", Value.num 10)]⟩
      ⟨"r1", [("x", Value.num 250), ("y", Value.num 250),
        ("battery", Value.num 90)]⟩).2.2.1 "x").trans rfl
  · exact ((agent_upsert_spec [] [] ⟨"r1", [("battery", Value.num 10)]⟩
      ⟨"r1", [("x", Value.num 250), ("y", Value.num 250),
        ("battery", Value.num 90)]⟩).2.2.1 "battery").trans rfl

/-- C9: an invocation of render, from the timer or synchronously after a
handler, leaves the state unchanged (the source body assigns no state
variable, so its embedding returns the input state), and the operation
stream depends only on the state variables render reads; in particular
two invocations on identical state draw identically. -/
theorem render_pure_deterministic :
    (∀ s : SimState, (renderInvoke s).1 = s) ∧
    (∀ s t : SimState, s.mapCells = t.mapCells →
      s.exploredCells = t.exploredCells → s.resources = t.resources →
      s.agents = t.agents → s.viewportX = t.viewportX →
      s.viewportY = t.viewportY → s.selectedAgent = t.selectedAgent →
      renderCmds s = renderCmds t) := by
  constructor
  · intro s; rfl
  · intro s t h1 h2 h3 h4 h5 h6 h7
    unfold renderCmds
    rw [h1, h2, h3, h4, h5, h6, h7]

/-- Witness for C9: two states that differ in the hazards array, the
bounds and the simulation flag render identically, and the invocation
returns its state unchanged. -/
theorem render_pure_deterministic_witness :
    (renderInvoke initialState).1 = initialState ∧
    renderCmds { initialState with
      hazards := [⟨"h1", []⟩], mapMaxX := 9,
      simulationStarted := true } = renderCmds initialState :=
  ⟨render_pure_deterministic.1 initialState,
   render_pure_deterministic.2
     { initialState with
       hazards := [⟨"h1", []⟩], mapMaxX := 9,
       simulationStarted := true }
     initialState rfl rfl rfl rfl rfl rfl rfl⟩

/-- Every cell of the scenario chunk has both coordinates in 200 to
299. -/
theorem chunk200_mem_bounds :
    ∀ c ∈ chunk200, 200 ≤ c.x ∧ c.x ≤ 299 ∧ 200 ≤ c.y ∧ c.y ≤ 299 := by
  intro c hc
  unfold chunk200 at hc
  rcases List.mem_flatMap.mp hc with ⟨i, hi, hmem⟩
  rcases List.mem_map.mp hmem with ⟨j, hj, hcc⟩
  rw [List.mem_range] at hi hj
  rw [← hcc]
  refine ⟨?_, ?_, ?_, ?_⟩ <;> simp <;> omega

/-- The low corner of the scenario chunk is listed. -/
theorem corner200_mem : (⟨200, 200, []⟩ : CellMsg) ∈ chunk200 := by
  unfold chunk200
  apply List.mem_flatMap.mpr
  refine ⟨0, List.mem_range.mpr (by norm_num), ?_⟩
  apply List.mem_map.mpr
  exact ⟨0, List.mem_range.mpr (by norm_num), by decide⟩

/-- The high corner of the scenario chunk is listed. -/
theorem corner299_mem : (⟨299, 299, []⟩ : CellMsg) ∈ chunk200 := by
  unfold chunk200
  apply List.mem_flatMap.mpr
  refine ⟨99, List.mem_range.mpr (by norm_num), ?_⟩
  apply List.mem_map.mpr
  exact ⟨99, List.mem_range.mpr (by norm_num), by decide⟩

/-- The bounds and viewport of the state after loading the scenario
chunk. -/
theorem chunkState_fields :
    chunkState.mapMinX = 200 ∧ chunkState.mapMinY = 200 ∧
    chunkState.mapMaxX = 299 ∧ chunkState.mapMaxY = 299 ∧
    chunkState.viewportX = 200 ∧ chunkState.viewportY = 200 := by
  have hne : chunk200 ≠ [] := List.ne_nil_of_mem corner200_mem
  obtain ⟨hcells, hminx, hminy, hmaxx, hmaxy, hvx, hvy⟩ :=
    initFullMap_fields chunk200 initialState hne
  have hM : MAP_SIZE_CELLS = (1000 : Int) := rfl
  have hminx200 : foldMinX chunk200 = 200 := by
    have h1 : foldMinX chunk200 ≤ 200 := by
      have := foldMinX_le_mem corner200_mem
      simpa using this
    obtain ⟨c, hc, he⟩ := foldMinX_attained hne (fun c hc => by
      have := (chunk200_mem_bounds c hc).2.1
      omega)
    have h2 := (chunk200_mem_bounds c hc).1
    omega
  have hminy200 : foldMinY chunk200 = 200 := by
    have h1 : foldMinY chunk200 ≤ 200 := by
      have := foldMinY_le_mem corner200_mem
      simpa using this
    obtain ⟨c, hc, he⟩ := foldMinY_attained hne (fun c hc => by
      have := (chunk200_mem_bounds c hc).2.2.2
      omega)
    have h2 := (chunk200_mem_bounds c hc).2.2.1
    omega
  have hmaxx299 : foldMaxX chunk200 = 299 := by
    have h1 : 299 ≤ foldMaxX chunk200 := by
      have := foldMaxX_ge_mem corner299_mem
      simpa using this
    obtain ⟨c, hc, he⟩ := foldMaxX_attained hne (fun c hc => by
      have := (chunk200_mem_bounds c hc).1
      omega)
    have h2 := (chunk200_mem_bounds c hc).2.1
    omega
  have hmaxy299 : foldMaxY chunk200 = 299 := by
    have h1 : 299 ≤ foldMaxY chunk200 := by
      have := foldMaxY_ge_mem corner299_mem
      simpa using this
    obtain ⟨c, hc, he⟩ := foldMaxY_attained hne (fun c hc => by
      have := (chunk200_mem_bounds c hc).2.2.1
      omega)
    have h2 := (chunk200_mem_bounds c hc).2.2.2
    omega
  show chunkState.mapMinX = 200 ∧ _
  unfold chunkState
  rw [hminx, hminy, hmaxx, hmaxy, hvx, hvy, hminx200, hminy200,
    hmaxx299, hmaxy299]
  exact ⟨rfl, rfl, rfl, rfl, rfl, rfl⟩

/-- The clamp formula, read off clampViewport when the unloaded
sentinel test fails. -/
theorem clampViewport_eval (s : SimState) (x y : Int)
    (hsent : ¬(s.mapMaxX = 0 ∧ s.mapMinX = MAP_SIZE_CELLS)) :
    (clampViewport x y s).viewportX =
      max s.mapMinX (min x (s.mapMaxX - (VIEWPORT_SIZE_CELLS : Int) + 1)) ∧
    (clampViewport x y s).viewportY =
      max s.mapMinY (min y (s.mapMaxY - (VIEWPORT_SIZE_CELLS : Int) + 1))
    := by
  unfold clampViewport
  rw [if_neg hsent]
  exact ⟨rfl, rfl⟩

/-- A pan on the scenario state runs through clampViewport (the guard
mapMaxX equal zero fails) and yields the clamp formula with bounds 200
to 299. -/
theorem chunkState_pan_eval (x y : Int) :
    (applyEvent chunkState (Event.pan x y)).viewportX =
      max 200 (min x 200) ∧
    (applyEvent chunkState (Event.pan x y)).viewportY =
      max 200 (min y 200) := by
  obtain ⟨hminx, hminy, hmaxx, hmaxy, hvx, hvy⟩ := chunkState_fields
  have hguard : ¬(chunkState.mapMaxX = 0) := by
    rw [hmaxx]; omega
  have hsent : ¬(chunkState.mapMaxX = 0 ∧
      chunkState.mapMinX = MAP_SIZE_CELLS) := by
    rintro ⟨h0, _⟩; exact hguard h0
  have hpan : applyEvent chunkState (Event.pan x y) =
      clampViewport x y chunkState := by
    show (if chunkState.mapMaxX = 0 then chunkState
      else clampViewport x y chunkState) = _
    rw [if_neg hguard]
  have hV : (VIEWPORT_SIZE_CELLS : Int) = 100 := rfl
  obtain ⟨he1, he2⟩ := clampViewport_eval chunkState x y hsent
  constructor
  · rw [hpan, he1, hminx, hmaxx, hV]
    norm_num
  · rw [hpan, he2, hminy, hmaxy, hV]
    norm_num

/-- C3, amended: after loading the scenario chunk the viewport origin is
(200, 200); panning to (150, 200) clamps to (200, 200); panning to
(205, 205) also clamps to (200, 200), since the only valid origin is
max minus W plus 1 equal 200; and panning to (260, 260) clamps to
(200, 200). -/
theorem scenario_chunk_pan :
    chunkState.viewportX = 200 ∧ chunkState.viewportY = 200 ∧
    (applyEvent chunkState (Event.pan 150 200)).viewportX = 200 ∧
    (applyEvent chunkState (Event.pan 150 200)).viewportY = 200 ∧
    (applyEvent chunkState (Event.pan 205 205)).viewportX = 200 ∧
    (applyEvent chunkState (Event.pan 205 205)).viewportY = 200 ∧
    (applyEvent chunkState (Event.pan 260 260)).viewportX = 200 ∧
    (applyEvent chunkState (Event.pan 260 260)).viewportY = 200 := by
  obtain ⟨_, _, _, _, hvx, hvy⟩ := chunkState_fields
  refine ⟨hvx, hvy, ?_, ?_, ?_, ?_, ?_, ?_⟩
  · rw [(chunkState_pan_eval 150 200).1]; omega
  · rw [(chunkState_pan_eval 150 200).2]; omega
  · rw [(chunkState_pan_eval 205 205).1]; omega
  · rw [(chunkState_pan_eval 205 205).2]; omega
  · rw [(chunkState_pan_eval 260 260).1]; omega
  · rw [(chunkState_pan_eval 260 260).2]; omega

/-- C3, counterexample to the claim as stated: panning to (205, 205)
does not succeed unclamped; it is clamped back to (200, 200), because
the maximum start coordinate 299 minus 100 plus 1 equals 200. -/
theorem scenario_pan_205_cex :
    (applyEvent chunkState (Event.pan 205 205)).viewportX = 200 ∧
    (applyEvent chunkState (Event.pan 205 205)).viewportY = 200 ∧
    (200 : Int) ≠ 205 := by
  refine ⟨?_, ?_, by decide⟩
  · rw [(chunkState_pan_eval 205 205).1]; omega
  · rw [(chunkState_pan_eval 205 205).2]; omega

end ISIA






